import Mathlib

/-!
Verification of the ROC Plus protocol client core (rocpy).

This file shallowly embeds the byte-level codec of the repository:
the CRC-16/ARC computation and request framing (`opcode_models/core.py`),
the response envelope decoding (`opcode_models/core.py`,
`opcode_models/opcodes.py`), the opcode 6 / 167 / 180 response decoders,
the alarm record decoder (`alarm_models.py`), the event record decoders
(`event_models.py`), and the single-flight guard and record-count guards
of the client facade (`client/roc_plus.py`).

Bytes are modelled as `Nat` (values < 256 on the wire), byte strings as
`List Nat`.  Machine arithmetic follows the Python source: Python ints
are unbounded, so no wrap-around is introduced except where the source
masks (`& 0xFF` etc.).  Fallible Python code (exceptions) is modelled
with `Except`.
-/

set_option maxRecDepth 4000

namespace RocPy

/-- Wire bytes: a list of naturals, each < 256 on real input. -/
abbrev Bytes := List Nat

/-- Python slice `xs[a:b]` on bytes: drop `a`, take `b - a`.
Never fails; may return fewer than `b - a` elements. -/
def pySlice (xs : Bytes) (a b : Nat) : Bytes :=
  (xs.drop a).take (b - a)

/-- Python indexing `xs[i]`; raises `IndexError` when out of range,
modelled as `Option`. -/
def pyIndex (xs : Bytes) (i : Nat) : Option Nat :=
  xs.get? i

/-- Little-endian interpretation of a byte list as an unsigned integer. -/
def leNat : Bytes → Nat
  | [] => 0
  | b :: rest => b + 256 * leNat rest

/-- Two's-complement reading of an unsigned `w`-byte little-endian value
as a signed integer (`struct` formats `b`, `h`, `i`). -/
def toSigned (w : Nat) (n : Nat) : Int :=
  if n < 2 ^ (8 * w - 1) then (n : Int) else (n : Int) - 2 ^ (8 * w)

/-! ## CRC-16/ARC — `opcode_models/core.py`, class `CRC` -/

/-- One shift step of the CRC loop body:
`crc = (crc >> 1) ^ 0xA001` when the low bit is set, else `crc >> 1`. -/
def crcShift (crc : Nat) : Nat :=
  if crc % 2 = 1 then (crc / 2) ^^^ 0xA001 else crc / 2

/-- Eight shift steps (`for _ in range(8)`). -/
def crcByteRounds (crc : Nat) : Nat :=
  (crcShift ∘ crcShift ∘ crcShift ∘ crcShift ∘ crcShift ∘ crcShift ∘ crcShift ∘ crcShift) crc

/-- `CRC.crc_value`: start from 0xFFFF, for each byte XOR it in and run
eight shift rounds. -/
def crcValue (data : Bytes) : Nat :=
  data.foldl (fun crc b => crcByteRounds (crc ^^^ b)) 0xFFFF

/-- `CRC.lsb`: `crc_value & 0xFF`. -/
def crcLsb (data : Bytes) : Nat := crcValue data % 256

/-- `CRC.msb`: `(crc_value >> 8) & 0xFF`. -/
def crcMsb (data : Bytes) : Nat := (crcValue data / 256) % 256

/-! ## Request framing — `opcode_models/core.py`, `Request` and
`opcode_models/opcodes.py`, `DeviceData` / `RequestData`. -/

/-- `DeviceData`: the four address bytes of the header. -/
structure DeviceData where
  roc_address : Nat
  roc_group : Nat
  host_address : Nat
  host_group : Nat
  deriving Repr, DecidableEq

/-- `DeviceData.to_binary_request`: `struct.pack('BBBB', ...)`. -/
def DeviceData.to_binary_request (d : DeviceData) : Bytes :=
  [d.roc_address % 256, d.roc_group % 256, d.host_address % 256, d.host_group % 256]

/-- `DeviceData.response_from_binary`: unpack the first four bytes as
`(host_address, host_group, roc_address, roc_group)`; `struct.unpack`
raises when fewer than four bytes are available. -/
def DeviceData.response_from_binary (raw : Bytes) : Option DeviceData :=
  match pySlice raw 0 4 with
  | [b0, b1, b2, b3] => some ⟨b2, b3, b0, b1⟩
  | _ => none

/-- An opcode-specific request body: the opcode number together with the
already-serialized `data_binary` bytes (`RequestData.data_binary`). -/
structure RequestData where
  opcode : Nat
  data_binary : Bytes
  deriving Repr, DecidableEq

/-- `RequestData.to_binary`: opcode byte, length byte, body bytes. -/
def RequestData.to_binary (r : RequestData) : Bytes :=
  [r.opcode % 256, r.data_binary.length % 256] ++ r.data_binary

/-- `Request._packet_without_crc`: header bytes followed by the
opcode-specific bytes. -/
def packetWithoutCrc (d : DeviceData) (r : RequestData) : Bytes :=
  d.to_binary_request ++ r.to_binary

/-- `Request.to_binary`: packet followed by `struct.pack('BB', lsb, msb)`. -/
def requestToBinary (d : DeviceData) (r : RequestData) : Bytes :=
  packetWithoutCrc d r ++ [crcLsb (packetWithoutCrc d r), crcMsb (packetWithoutCrc d r)]

/-! ## ROC data types — `roc_data_types.py`, `ParameterDataTypes`.

Each entry of `ParameterDataTypes` is modelled as a constructor; its
`struct` format string determines the wire width (`structure.size`) and
the unpack shape.  (`ParameterDataTypes.AC` is an alias of `AC10` and is
not separately modelled.) -/
inductive ROCDataType
  | BIN | AC3 | AC7 | AC10 | AC12 | AC20 | AC30 | AC40
  | INT8 | INT16 | INT32 | UINT8 | UINT16 | UINT32
  | FL | DBL | TLP | TIME | HOURMINUTE | UNKNOWN
  deriving Repr, DecidableEq

/-- `struct.Struct('<' + format_string).size` for each data type. -/
def structSize : ROCDataType → Nat
  | .BIN => 1 | .AC3 => 3 | .AC7 => 7 | .AC10 => 10 | .AC12 => 12
  | .AC20 => 20 | .AC30 => 30 | .AC40 => 40
  | .INT8 => 1 | .INT16 => 2 | .INT32 => 4
  | .UINT8 => 1 | .UINT16 => 2 | .UINT32 => 4
  | .FL => 4 | .DBL => 8 | .TLP => 3 | .TIME => 4 | .HOURMINUTE => 2
  | .UNKNOWN => 0

/-- The Python base type (`py_type`) of each data type. -/
inductive PyType | intT | floatT | strT | listT | bytesT
  deriving Repr, DecidableEq

/-- `ParameterDataTypes`: `py_type` column. -/
def pyType : ROCDataType → PyType
  | .BIN => .intT
  | .AC3 | .AC7 | .AC10 | .AC12 | .AC20 | .AC30 | .AC40 => .strT
  | .INT8 | .INT16 | .INT32 | .UINT8 | .UINT16 | .UINT32 => .intT
  | .FL | .DBL => .floatT
  | .TLP => .listT
  | .TIME | .HOURMINUTE => .intT
  | .UNKNOWN => .bytesT

/-- A dynamically typed Python value as it appears in decoded responses.
IEEE-754 floats are represented by their little-endian bit patterns
(`f32bits` / `f64bits`), which `struct.unpack` reads bijectively from
the wire bytes. -/
inductive PyValue
  | int (i : Int)
  | f32bits (n : Nat)
  | f64bits (n : Nat)
  | str (s : String)
  | bytes (b : List Nat)
  | intList (l : List Nat)
  | none
  deriving Repr, DecidableEq

/-- Result of `struct.unpack(data_type.structure.format, bs)` followed by
the decoders' `value = value_tuple[0] if len == 1 else list(value_tuple)`
step.  Precondition (enforced by callers): `bs.length = structSize dt`. -/
def structUnpackValue : ROCDataType → Bytes → PyValue
  | .BIN, bs => .int (leNat bs)
  | .AC3, bs | .AC7, bs | .AC10, bs | .AC12, bs
  | .AC20, bs | .AC30, bs | .AC40, bs => .bytes bs
  | .INT8, bs => .int (toSigned 1 (leNat bs))
  | .INT16, bs => .int (toSigned 2 (leNat bs))
  | .INT32, bs => .int (toSigned 4 (leNat bs))
  | .UINT8, bs | .UINT16, bs | .UINT32, bs => .int (leNat bs)
  | .FL, bs => .f32bits (leNat bs)
  | .DBL, bs => .f64bits (leNat bs)
  | .TLP, bs => .intList bs
  | .TIME, bs => .int (leNat bs)
  | .HOURMINUTE, bs => .int (leNat bs)
  | .UNKNOWN, _ => .intList []

/-- Decoding of fixed-width ASCII wire bytes to a string (the
`v.decode('utf-8')` step for the 7-bit ASCII payloads the protocol
carries). -/
def asciiString (bs : List Nat) : String :=
  String.mk (bs.map Char.ofNat)

/-- The ASCII whitespace bytes Python's `str.strip()` removes. -/
def isPySpace (c : Nat) : Bool :=
  c == 32 || c == 9 || c == 10 || c == 13 || c == 11 || c == 12

/-- `str.strip()` on ASCII wire bytes: drop whitespace from both ends. -/
def pyStrip (bs : List Nat) : List Nat :=
  ((bs.dropWhile isPySpace).reverse.dropWhile isPySpace).reverse

/-! ## Decode failures.

Python exceptions raised on the decode paths, collapsed into one error
type: `structError` for `struct.error` (wrong slice length),
`indexError` for out-of-range `bytes` indexing, `keyError` for a failed
dictionary / dispatch-table lookup, `valueError` for a failed enum or
pydantic validation, and the two registry misses. -/
inductive DecodeErr
  | pointTypeNotFound
  | parameterNotFound
  | structError
  | indexError
  | keyError
  | valueError
  deriving Repr, DecidableEq

/-! ## TLP schema registry.

Modelled from the spec: the curated table `tlp_models/point_types.py`
(class `PointTypes`, with `get_point_type_by_number` and
`PointTypeNotFoundError`) is generated vendor data and is not part of
the core source; the spec (§4.3) describes the registry as an injected
read-only table with `get_point_type_by_number(n) → PointType` or
`PointTypeNotFound`.  The registry is therefore a parameter here: a list
of point-type definitions, looked up by number.
`PointType.get_parameter_by_number` is from `tlp_models/point_type.py`:
the first declared parameter with the matching number, raising
`ParameterNotFoundError` on a miss. -/
structure Parameter where
  parameter_number : Nat
  parameter_name : String
  data_type : ROCDataType
  deriving Repr, DecidableEq

structure PointTypeDef where
  point_type_number : Nat
  point_type_desc : String
  parameters : List Parameter
  deriving Repr, DecidableEq

abbrev Registry := List PointTypeDef

/-- Modelled from the spec: `PointTypes.get_point_type_by_number`
(missing `tlp_models/point_types.py`); `none` stands for the raised
`PointTypeNotFoundError`. -/
def getPointTypeByNumber (reg : Registry) (n : Nat) : Option PointTypeDef :=
  reg.find? (fun pt => pt.point_type_number == n)

/-- `PointType.get_parameter_by_number`; `none` stands for the raised
`ParameterNotFoundError`. -/
def getParameterByNumber (pt : PointTypeDef) (n : Nat) : Option Parameter :=
  pt.parameters.find? (fun p => p.parameter_number == n)

/-! ## TLP instances and values — `tlp_models/tlp.py`. -/

/-- `TLPInstance`: a parameter reference resolved against the registry.
The point type is carried as its number and description. -/
structure TLPInstanceR where
  point_type_number : Nat
  point_type_desc : String
  logical_number : Nat
  parameter : Parameter
  deriving Repr, DecidableEq

/-- The synthetic parameter built by `TLPInstance.get_unknown_tlp`:
carries the referenced number and the `UNKNOWN` data type. -/
def unknownParameter (n : Nat) : Parameter :=
  ⟨n, "Unknown Parameter", .UNKNOWN⟩

/-- `TLPInstance.get_unknown_tlp`: a synthetic unknown point type
wrapping the referenced number, with the synthetic unknown parameter. -/
def unknownTLP (pt ln param : Nat) : TLPInstanceR :=
  ⟨pt, "Unknown Point Type", ln, unknownParameter param⟩

/-- `TLPInstance.from_integers`: resolve the triple against the
registry; `PointTypeNotFoundError` is caught and materialized as the
unknown TLP, while a `ParameterNotFoundError` for a known point type
propagates. -/
def fromIntegers (reg : Registry) (pt ln param : Nat) :
    Except DecodeErr TLPInstanceR :=
  match getPointTypeByNumber reg pt with
  | Option.none => .ok (unknownTLP pt ln param)
  | some ptd =>
    match getParameterByNumber ptd param with
    | Option.none => .error .parameterNotFound
    | some p => .ok ⟨ptd.point_type_number, ptd.point_type_desc, ln, p⟩

/-- `TLPValue`: a TLP instance together with its current value and
timestamp (epoch seconds).  The BIN per-bit breakdown (`bit_values`) is
not modelled; no property below concerns it. -/
structure TLPValueR where
  tlp : TLPInstanceR
  value : PyValue
  timestamp : Int
  deriving Repr, DecidableEq

/-- Modelled from the spec: `TLPValue.from_tlp_instance` is called by
the event and history decoders but is among the helpers missing from
`tlp_models/tlp.py` under src/; per §3 a `TLPValue` is the
`TLPInstance` plus `{value, timestamp}`. -/
def fromTlpInstance (tlp : TLPInstanceR) (value : PyValue) (timestamp : Int) :
    TLPValueR :=
  ⟨tlp, value, timestamp⟩

/-- `TLPValue.validate_value`: for `str`-typed parameters a `bytes`
value is decoded and stripped of surrounding whitespace; other values
must already be instances of the parameter's `py_type`, else a
`ValueError` (pydantic validation failure) is raised. -/
def coerceValue (dt : ROCDataType) (v : PyValue) : Except DecodeErr PyValue :=
  match pyType dt, v with
  | .strT, .bytes bs => .ok (.str (asciiString (pyStrip bs)))
  | .intT, .int _ => .ok v
  | .floatT, .f32bits _ => .ok v
  | .floatT, .f64bits _ => .ok v
  | .listT, .intList _ => .ok v
  | .bytesT, .bytes _ => .ok v
  | _, _ => .error .valueError

/-- Construction of a `TLPValue` by the opcode 167/180 decoders: the
value passes through `validate_value`. -/
def mkTLPValue (ptd : PointTypeDef) (p : Parameter) (ln : Nat) (v : PyValue)
    (ts : Int) : Except DecodeErr TLPValueR := do
  let v' ← coerceValue p.data_type v
  .ok ⟨⟨ptd.point_type_number, ptd.point_type_desc, ln, p⟩, v', ts⟩

/-! ## Opcode 6 — `SystemConfigResponseData.data_from_binary`.

The enum constructions (`ROCOperatingMode(x)` etc., from `enums.py`)
raise `ValueError` on a value outside the enumeration; they are
modelled as validity predicates over the raw integer. -/

/-- `ROCOperatingMode` members: 0, 1. -/
def validOperatingMode (n : Nat) : Bool := n == 0 || n == 1

/-- `LogicalCompatibilityStatus` members: 0, 1, 2. -/
def validCompatStatus (n : Nat) : Bool := n == 0 || n == 1 || n == 2

/-- `OpcodeRevision` members: 0, 1. -/
def validOpcodeRevision (n : Nat) : Bool := n == 0 || n == 1

/-- `ROCSubType` members: 0, 1. -/
def validROCSubType (n : Nat) : Bool := n == 0 || n == 1

/-- `ROCType` members: 1..6 and 11. -/
def validROCType (n : Nat) : Bool :=
  n == 1 || n == 2 || n == 3 || n == 4 || n == 5 || n == 6 || n == 11

/-- `SystemConfigData` with enum fields kept as their raw integers. -/
structure SystemConfigData where
  operating_mode : Nat
  comm_port : Int
  security_access_mode : Nat
  compatibility_status : Nat
  opcode_revision : Nat
  roc_subtype : Nat
  roc_type : Nat
  point_type_counts : List (Nat × Nat)
  deriving Repr, DecidableEq

/-- Lift a Python `bytes` index (`IndexError` on miss) into `Except`. -/
def idx (raw : Bytes) (i : Nat) : Except DecodeErr Nat :=
  match pyIndex raw i with
  | some b => .ok b
  | Option.none => .error .indexError

/-- `SystemConfigResponseData.data_from_binary`: scalars at frame
offsets 6, 7:9 (`struct.unpack('h', ...)`, little-endian signed 16-bit),
9, 10, 11, 12 and 24; then `for i in range(25, 221)`able counts keyed
`i + 35`.  Enum constructions run in the final `SystemConfigData(...)`
call. -/
def systemConfigDataFromBinary (raw : Bytes) :
    Except DecodeErr SystemConfigData := do
  let operating_mode ← idx raw 6
  let commSlice := pySlice raw 7 9
  if commSlice.length ≠ 2 then .error .structError else do
  let comm_port : Int := toSigned 2 (leNat commSlice)
  let security_access_mode ← idx raw 9
  let compatibility_status ← idx raw 10
  let opcode_revision ← idx raw 11
  let roc_subtype ← idx raw 12
  let roc_type ← idx raw 24
  let point_type_counts ← (List.range 196).mapM
    (fun i => do
      let b ← idx raw (25 + i)
      pure ((25 + i) + 35, b))
  if validOperatingMode operating_mode ∧ validCompatStatus compatibility_status ∧
      validOpcodeRevision opcode_revision ∧ validROCSubType roc_subtype ∧
      validROCType roc_type then
    .ok ⟨operating_mode, comm_port, security_access_mode, compatibility_status,
         opcode_revision, roc_subtype, roc_type, point_type_counts⟩
  else .error .valueError

/-! ## Opcode 7 — `ReadClockResponseData.data_from_binary`. -/

structure ReadClockData where
  current_second : Nat
  current_minute : Nat
  current_hour : Nat
  current_day : Nat
  current_month : Nat
  current_year : Nat
  current_day_of_week : Nat
  deriving Repr, DecidableEq

/-- `struct.unpack('<BBBBBHB', raw_response[6:14])`: five bytes, a
little-endian u16 year, one byte; `struct.error` when the slice is not
exactly eight bytes. -/
def readClockDataFromBinary (raw : Bytes) : Except DecodeErr ReadClockData :=
  match pySlice raw 6 14 with
  | [s, m, h, d, mo, y0, y1, wd] => .ok ⟨s, m, h, d, mo, y0 + 256 * y1, wd⟩
  | _ => .error .structError

/-! ## Opcode 167 — `SinglePointParameterResponseData.data_from_binary`. -/

structure SinglePointParameterData where
  point_type : Nat
  logical_number : Nat
  number_of_parameters : Nat
  starting_parameter_number : Nat
  values : List TLPValueR
  deriving Repr, DecidableEq

/-- `PointTypes.get_point_type_by_number` as the decoders observe it:
the raised `PointTypeNotFoundError` becomes the error value (the 167 and
180 decoders do not catch it). -/
def getPointTypeE (reg : Registry) (n : Nat) : Except DecodeErr PointTypeDef :=
  match getPointTypeByNumber reg n with
  | some ptd => .ok ptd
  | Option.none => .error .pointTypeNotFound

/-- `PointType.get_parameter_by_number` as the decoders observe it: the
raised `ParameterNotFoundError` becomes the error value. -/
def getParameterE (ptd : PointTypeDef) (n : Nat) : Except DecodeErr Parameter :=
  match getParameterByNumber ptd n with
  | some p => .ok p
  | Option.none => .error .parameterNotFound

/-- The `for i in range(number_of_parameters)` loop of the opcode 167
decoder: look up parameter `starting_parameter_number + i`, consume
`data_type.structure.size` bytes at the running offset, unpack, emit a
`TLPValue`.  `remaining` counts the iterations left; `i` and `startIdx`
are the loop counter and the running byte offset. -/
def decode167Loop (ptd : PointTypeDef) (ln : Nat) (dataBytes : Bytes)
    (startParam : Nat) (ts : Int) :
    (remaining i startIdx : Nat) → Except DecodeErr (List TLPValueR)
  | 0, _, _ => .ok []
  | remaining + 1, i, startIdx => do
    let p ← getParameterE ptd (startParam + i)
    let w := structSize p.data_type
    let slice := pySlice dataBytes startIdx (startIdx + w)
    if slice.length = w then do
      let tv ← mkTLPValue ptd p ln (structUnpackValue p.data_type slice) ts
      let rest ← decode167Loop ptd ln dataBytes startParam ts
        remaining (i + 1) (startIdx + w)
      .ok (tv :: rest)
    else .error .structError

/-- `SinglePointParameterResponseData.data_from_binary`: read the four
echoed bytes from the body, resolve the point type in the registry
(a miss — `PointTypeNotFoundError` — propagates), then run the loop
over the remaining bytes.  `ts` is the `datetime.now()` receipt
timestamp. -/
def singlePointParameterDataFromBinary (reg : Registry) (ts : Int)
    (raw : Bytes) : Except DecodeErr SinglePointParameterData := do
  let dataLength ← idx raw 5
  let responseData := pySlice raw 6 (6 + dataLength)
  let point_type ← idx responseData 0
  let logical_number ← idx responseData 1
  let number_of_parameters ← idx responseData 2
  let starting_parameter_number ← idx responseData 3
  let dataBytes := responseData.drop 4
  let ptd ← getPointTypeE reg point_type
  let values ← decode167Loop ptd logical_number dataBytes
    starting_parameter_number ts number_of_parameters 0 0
  .ok ⟨point_type, logical_number, number_of_parameters,
       starting_parameter_number, values⟩

/-! ## Opcode 180 — `ParameterResponseData.data_from_binary`. -/

structure ParameterData where
  value_count : Nat
  values : List TLPValueR
  deriving Repr, DecidableEq

/-- The `for _ in range(value_count)` loop of the opcode 180 decoder:
three TLP bytes, registry lookups (a point-type miss propagates), then
`data_type.structure.size` value bytes. -/
def decode180Loop (reg : Registry) (parameterBytes : Bytes) (ts : Int) :
    (remaining startIdx : Nat) → Except DecodeErr (List TLPValueR)
  | 0, _ => .ok []
  | remaining + 1, startIdx =>
    match pySlice parameterBytes startIdx (startIdx + 3) with
    | [point_type, point_number, param_number] => do
      let ptd ← getPointTypeE reg point_type
      let p ← getParameterE ptd param_number
      let w := structSize p.data_type
      let slice := pySlice parameterBytes (startIdx + 3) (startIdx + 3 + w)
      if slice.length = w then do
        let tv ← mkTLPValue ptd p point_number
          (structUnpackValue p.data_type slice) ts
        let rest ← decode180Loop reg parameterBytes ts
          remaining (startIdx + 3 + w)
        .ok (tv :: rest)
      else .error .structError
    | _ => .error .structError

/-- `ParameterResponseData.data_from_binary`. -/
def parameterDataFromBinary (reg : Registry) (ts : Int) (raw : Bytes) :
    Except DecodeErr ParameterData := do
  let dataLength ← idx raw 5
  let responseData := pySlice raw 6 (6 + dataLength)
  let value_count ← idx responseData 0
  let parameterBytes := responseData.drop 1
  let values ← decode180Loop reg parameterBytes ts value_count 0
  .ok ⟨value_count, values⟩

/-! ## Response envelope — `opcode_models/core.py`, `Response.from_binary`
and `opcode_models/opcodes.py`, `MessageModels.get_model_by_opcode`. -/

/-- The opcodes with a registered `MessageModel` (class attributes `_6`,
`_7`, … of `MessageModels`). -/
def registeredOpcodes : List Nat :=
  [6, 7, 50, 105, 108, 118, 119, 135, 136, 137, 138, 139, 167, 180, 206, 255]

/-- Decoded opcode-specific payloads.  The four body decoders exercised
by the properties below are embedded; `otherRegistered` marks a
registered opcode whose body decoder is outside this embedding (no
theorem evaluates one). -/
inductive BodyData
  | systemConfig (d : SystemConfigData)
  | readClock (d : ReadClockData)
  | singlePointParameter (d : SinglePointParameterData)
  | parameter (d : ParameterData)
  | otherRegistered (opcode : Nat)
  deriving Repr, DecidableEq

/-- Dispatch of `opcode_model.response_data.data_from_binary`. -/
def dataFromBinary (reg : Registry) (ts : Int) (opcode : Nat) (raw : Bytes) :
    Except DecodeErr BodyData :=
  match opcode with
  | 6 => (systemConfigDataFromBinary raw).map .systemConfig
  | 7 => (readClockDataFromBinary raw).map .readClock
  | 167 => (singlePointParameterDataFromBinary reg ts raw).map .singlePointParameter
  | 180 => (parameterDataFromBinary reg ts raw).map .parameter
  | n => .ok (.otherRegistered n)

/-- `Response`: device data plus the opcode-specific response data. -/
structure ResponseR where
  device_data : DeviceData
  opcode : Nat
  data_length : Nat
  data : Option BodyData
  deriving Repr, DecidableEq

/-- `Response.from_binary` composed with
`ResponseData.from_binary`: device bytes, opcode byte at index 4,
model lookup (`KeyError` when the opcode has no registered model),
length byte at index 5, and — only when the length is positive — the
body decoder.  No frame-length or CRC validation appears on this path,
matching the source. -/
def responseFromBinary (reg : Registry) (ts : Int) (raw : Bytes) :
    Except DecodeErr ResponseR := do
  let dd ← match DeviceData.response_from_binary raw with
    | some d => Except.ok d
    | Option.none => Except.error DecodeErr.structError
  let opcode ← idx raw 4
  if registeredOpcodes.contains opcode then do
    let dataLength ← idx raw 5
    if dataLength > 0 then do
      let d ← dataFromBinary reg ts opcode raw
      .ok ⟨dd, opcode, dataLength, some d⟩
    else
      .ok ⟨dd, opcode, dataLength, Option.none⟩
  else .error .keyError

/-! ## Alarm records — `alarm_models.py`, `AlarmTypes`. -/

/-- `(n >> i) & 1`, as a Boolean (the decoder's `bit_array`). -/
def pyBit (n i : Nat) : Bool := (n >>> i) % 2 == 1

/-- Reassembly of the alarm type code from the six low bits:
`type_code_int |= (bit << i)` for `i, bit in enumerate(bit_array[:6])`. -/
def alarmTypeCodeOf (typeInt : Nat) : Nat :=
  (List.range 6).foldl
    (fun acc i => acc ||| ((if pyBit typeInt i then 1 else 0) <<< i)) 0

/-- An alarm record decoded by `AlarmTypes.get_alarm_from_binary`.
`condition` is the `AlarmCondition` enum (`true` = `SET`);
`alarm_code` the raw `ParameterAlarmCode` integer; float values carry
their f32 bit patterns. -/
inductive AlarmR
  | noAlarm (is_srbx condition : Bool) (timestamp : Int)
  | parameterAlarm (is_srbx condition : Bool) (timestamp : Int)
      (alarm_code : Nat) (tlp : TLPInstanceR) (alarm_description : String)
      (value : Nat)
  | fstAlarm (is_srbx condition : Bool) (timestamp : Int) (fst : Nat)
      (alarm_description : String) (value : Nat)
  | userTextAlarm (is_srbx condition : Bool) (timestamp : Int)
      (alarm_description : String)
  | userValueAlarm (is_srbx condition : Bool) (timestamp : Int)
      (alarm_description : String) (value : Nat)
  deriving Repr, DecidableEq

/-- The `is_srbx` flag of a decoded alarm. -/
def AlarmR.isSrbx : AlarmR → Bool
  | .noAlarm s _ _ | .parameterAlarm s _ _ _ _ _ _ | .fstAlarm s _ _ _ _ _
  | .userTextAlarm s _ _ _ | .userValueAlarm s _ _ _ _ => s

/-- The `condition` flag of a decoded alarm. -/
def AlarmR.cond : AlarmR → Bool
  | .noAlarm _ c _ | .parameterAlarm _ c _ _ _ _ _ | .fstAlarm _ c _ _ _ _
  | .userTextAlarm _ c _ _ | .userValueAlarm _ c _ _ _ => c

/-- The timestamp of a decoded alarm. -/
def AlarmR.ts : AlarmR → Int
  | .noAlarm _ _ t | .parameterAlarm _ _ t _ _ _ _ | .fstAlarm _ _ t _ _ _
  | .userTextAlarm _ _ t _ | .userValueAlarm _ _ t _ _ => t

/-- `AlarmTypes.ParameterAlarm.from_binary`: alarm code byte at 5
(`ParameterAlarmCode` accepts 0..33), TLP bytes 6..9 resolved through
`TLPInstance.from_integers`, ten description bytes 9..19 (assigned to a
`str` field, pydantic decodes the bytes without stripping), f32 value
bytes 19..23. -/
def parameterAlarmFromBinary (reg : Registry) (is_srbx condition : Bool)
    (timestamp : Int) (data : Bytes) : Except DecodeErr AlarmR := do
  let alarmCode ← idx data 5
  if alarmCode ≤ 33 then do
    let pt ← idx data 6
    let ln ← idx data 7
    let param ← idx data 8
    let tlp ← fromIntegers reg pt ln param
    let descSlice := pySlice data 9 19
    if descSlice.length = 10 then
      let valSlice := pySlice data 19 23
      if valSlice.length = 4 then
        .ok (.parameterAlarm is_srbx condition timestamp alarmCode tlp
          (asciiString descSlice) (leNat valSlice))
      else .error .structError
    else .error .structError
  else .error .valueError

/-- `AlarmTypes.FSTAlarm.from_binary`. -/
def fstAlarmFromBinary (is_srbx condition : Bool) (timestamp : Int)
    (data : Bytes) : Except DecodeErr AlarmR := do
  let fstIndex ← idx data 5
  let descSlice := pySlice data 6 19
  if descSlice.length = 13 then
    let valSlice := pySlice data 19 23
    if valSlice.length = 4 then
      .ok (.fstAlarm is_srbx condition timestamp fstIndex
        (asciiString descSlice) (leNat valSlice))
    else .error .structError
  else .error .structError

/-- `AlarmTypes.UserTextAlarm.from_binary`. -/
def userTextAlarmFromBinary (is_srbx condition : Bool) (timestamp : Int)
    (data : Bytes) : Except DecodeErr AlarmR := do
  let descSlice := pySlice data 5 23
  if descSlice.length = 18 then
    .ok (.userTextAlarm is_srbx condition timestamp (asciiString descSlice))
  else .error .structError

/-- `AlarmTypes.UserValueAlarm.from_binary`. -/
def userValueAlarmFromBinary (is_srbx condition : Bool) (timestamp : Int)
    (data : Bytes) : Except DecodeErr AlarmR := do
  let descSlice := pySlice data 5 19
  if descSlice.length = 14 then
    let valSlice := pySlice data 19 23
    if valSlice.length = 4 then
      .ok (.userValueAlarm is_srbx condition timestamp
        (asciiString descSlice) (leNat valSlice))
    else .error .structError
  else .error .structError

/-- `AlarmTypes.get_alarm_from_binary`: unpack byte 0 into the bit
array (`is_srbx` = bit 7, `condition` = bit 6, type code = bits 0..5),
resolve the alarm class (`AlarmTypeNotFoundError`, a `KeyError`, for a
code with no class), unpack the u32 LE timestamp from bytes 1..5, and
dispatch. -/
def getAlarmFromBinary (reg : Registry) (data : Bytes) :
    Except DecodeErr AlarmR := do
  let typeInt ← idx data 0
  let is_srbx := pyBit typeInt 7
  let condition := pyBit typeInt 6
  let code := alarmTypeCodeOf typeInt
  if code ≤ 4 then
    let tsSlice := pySlice data 1 5
    if tsSlice.length = 4 then
      let timestamp : Int := leNat tsSlice
      match code with
      | 0 => .ok (.noAlarm is_srbx condition timestamp)
      | 1 => parameterAlarmFromBinary reg is_srbx condition timestamp data
      | 2 => fstAlarmFromBinary is_srbx condition timestamp data
      | 3 => userTextAlarmFromBinary is_srbx condition timestamp data
      | _ => userValueAlarmFromBinary is_srbx condition timestamp data
    else .error .structError
  else .error .keyError

/-! ## Event records — `event_models.py`, `EventTypes`.

The two class decoders the properties exercise are embedded.  Their
`timestamp` argument is the u32 LE epoch value that
`EventTypes.get_event_from_binary` unpacks from record bytes 1..5. -/

/-- `enums.EventDataTypeDict`: event data-type code → data type. -/
def eventDataTypeDict : Nat → Option ROCDataType
  | 0 => some .BIN | 1 => some .INT8 | 2 => some .INT16 | 3 => some .INT32
  | 4 => some .UINT8 | 5 => some .UINT16 | 6 => some .UINT32 | 7 => some .FL
  | 8 => some .TLP | 9 => some .AC3 | 10 => some .AC7 | 11 => some .AC10
  | 12 => some .AC12 | 13 => some .AC20 | 14 => some .AC30 | 15 => some .AC40
  | 16 => some .DBL | 17 => some .TIME
  | _ => Option.none

/-- `EventTypes.ParameterChangeEvent` (kind 1). -/
structure ParameterChangeEventR where
  timestamp : Int
  operator_id : String
  tlp : TLPInstanceR
  data_type : ROCDataType
  new_value : TLPValueR
  old_value : TLPValueR
  deriving Repr, DecidableEq

/-- `EventTypes.ParameterChangeEvent.from_binary`: operator bytes 5..8,
TLP bytes 8..11 through `TLPInstance.from_integers`, data-type code at
11 mapped through `EventDataTypeDict` (`KeyError` on a miss), the new
value from bytes `12 .. 12+W`; the old value from bytes `16 .. 16+W`
when `W ≤ 4` and `None` otherwise, wrapped with timestamp one second
before the event's. -/
def parameterChangeEventFromBinary (reg : Registry) (timestamp : Int)
    (data : Bytes) : Except DecodeErr ParameterChangeEventR := do
  let opSlice := pySlice data 5 8
  if opSlice.length ≠ 3 then .error .structError else do
  let operator_id := asciiString opSlice
  let pt ← idx data 8
  let ln ← idx data 9
  let param ← idx data 10
  let tlp ← fromIntegers reg pt ln param
  let dtCode ← idx data 11
  let dt ← match eventDataTypeDict dtCode with
    | some d => Except.ok d
    | Option.none => Except.error DecodeErr.keyError
  let w := structSize dt
  let newSlice := pySlice data 12 (12 + w)
  if newSlice.length ≠ w then .error .structError else do
  let newValueObj := fromTlpInstance tlp (structUnpackValue dt newSlice) timestamp
  let oldValue ←
    if w > 4 then Except.ok PyValue.none
    else
      let oldSlice := pySlice data 16 (16 + w)
      if oldSlice.length = w then Except.ok (structUnpackValue dt oldSlice)
      else Except.error DecodeErr.structError
  let oldValueObj := fromTlpInstance tlp oldValue (timestamp - 1)
  .ok ⟨timestamp, operator_id, tlp, dt, newValueObj, oldValueObj⟩

/-- `EventTypes.CalibrateVerifyEvent` (kind 7). -/
structure CalibrateVerifyEventR where
  timestamp : Int
  operator_id : String
  tlp : TLPInstanceR
  raw_value : TLPValueR
  calibrated_value : TLPValueR
  deriving Repr, DecidableEq

/-- `EventTypes.CalibrateVerifyEvent.from_binary`: operator bytes 5..8,
TLP bytes 8..11, raw f32 from bytes 11..15 and calibrated f32 from
bytes 15..19.  The source computes `cal_value` from bytes 15..19 but
passes `value=raw_value` when building `cal_value_obj`; the computed
`cal_value` is never used.  The embedding mirrors that exactly. -/
def calibrateVerifyEventFromBinary (reg : Registry) (timestamp : Int)
    (data : Bytes) : Except DecodeErr CalibrateVerifyEventR := do
  let opSlice := pySlice data 5 8
  if opSlice.length ≠ 3 then .error .structError else do
  let operator_id := asciiString opSlice
  let pt ← idx data 8
  let ln ← idx data 9
  let param ← idx data 10
  let tlp ← fromIntegers reg pt ln param
  let rawSlice := pySlice data 11 15
  if rawSlice.length ≠ 4 then .error .structError else do
  let rawValue := leNat rawSlice
  let rawValueObj := fromTlpInstance tlp (.f32bits rawValue) timestamp
  let calSlice := pySlice data 15 19
  if calSlice.length ≠ 4 then .error .structError else do
  let _calValue := leNat calSlice
  let calValueObj := fromTlpInstance tlp (.f32bits rawValue) timestamp
  .ok ⟨timestamp, operator_id, tlp, rawValueObj, calValueObj⟩

/-! ## Client facade — `client/roc_plus.py`, `ROCPlusClient`. -/

/-- Outcome of invoking `make_opcode_request` while the client holds
the `_active_request` flag in the given state. -/
inductive EnterOutcome
  | busy
  | proceeded
  deriving Repr, DecidableEq

/-- The synchronous prefix of `make_opcode_request`, up to its first
transport suspension (the stream write): inside the `try`, when
`_active_request` is set the call raises `ROCConnectionError` — and the
`finally` clause clears `_active_request` on that exit — otherwise the
call sets `_active_request` and proceeds to encode and write the
request.  Returns the flag state after this prefix and the outcome. -/
def enterRequest (active : Bool) : Bool × EnterOutcome :=
  if active then (false, .busy) else (true, .proceeded)

/-- Completion of a proceeding `make_opcode_request` (return or
exception): the `finally` clause clears `_active_request`. -/
def exitRequest (_ : Bool) : Bool := false

/-- Whether an invocation with the given outcome writes request bytes
to the transport (the busy branch raises before the request is even
constructed). -/
def writesBytes : EnterOutcome → Bool
  | .busy => false
  | .proceeded => true

/-- `struct.pack('<h', v)`: two little-endian bytes of a signed 16-bit
value (callers pass in-range values). -/
def i16leBytes (v : Int) : Bytes :=
  [(v % 65536).toNat % 256, (v % 65536).toNat / 256 % 256]

/-- `AlarmDataRequestData.data_binary`: `pack('B', n) + pack('<h', start)`. -/
def alarmDataRequestBinary (n : Nat) (start : Int) : Bytes :=
  [n % 256] ++ i16leBytes start

/-- `EventDataRequestData.data_binary`: same layout as the alarm request. -/
def eventDataRequestBinary (n : Nat) (start : Int) : Bytes :=
  [n % 256] ++ i16leBytes start

/-- `ROCPlusClient.get_alarm_data` up to the opcode exchange: more than
10 requested records raises `ValueError` before the request object is
constructed; otherwise the opcode 118 request is built and submitted. -/
def getAlarmDataRequest (startIndex : Int) (numberOfAlarms : Nat) :
    Except DecodeErr RequestData :=
  if numberOfAlarms > 10 then .error .valueError
  else .ok ⟨118, alarmDataRequestBinary numberOfAlarms startIndex⟩

/-- `ROCPlusClient.get_event_data` up to the opcode exchange: more than
10 requested records raises `ValueError` before the request object is
constructed; otherwise the opcode 119 request is built and submitted. -/
def getEventDataRequest (startIndex : Int) (numberOfEvents : Nat) :
    Except DecodeErr RequestData :=
  if numberOfEvents > 10 then .error .valueError
  else .ok ⟨119, eventDataRequestBinary numberOfEvents startIndex⟩

/-- The value of a decoded parameter after `validate_value`: fixed-width
ASCII becomes a whitespace-stripped string; every other type keeps its
unpack shape. -/
def decodedValue (dt : ROCDataType) (bs : Bytes) : PyValue :=
  match pyType dt with
  | .strT => .str (asciiString (pyStrip bs))
  | _ => structUnpackValue dt bs

/-- `params` are exactly the parameters the registry resolves at the
consecutive numbers `n, n + 1, …` within point type `ptd`. -/
def paramsFrom (ptd : PointTypeDef) : Nat → List Parameter → Prop
  | _, [] => True
  | n, p :: rest => getParameterByNumber ptd n = some p ∧ paramsFrom ptd (n + 1) rest

/-- Total declared wire width of a parameter list. -/
def widthSum : List Parameter → Nat
  | [] => 0
  | p :: rest => structSize p.data_type + widthSum rest

/-- The positional reading of a contiguous parameter response: each
value occupies exactly its parameter's declared width, at the cumulative
offset of the widths before it (consecutive values adjacent, in
parameter order), decoded per the parameter's data type. -/
def contiguousValues (ptd : PointTypeDef) (ln : Nat) (ts : Int)
    (dataBytes : Bytes) : List Parameter → Nat → List TLPValueR
  | [], _ => []
  | p :: rest, startIdx =>
    ⟨⟨ptd.point_type_number, ptd.point_type_desc, ln, p⟩,
     decodedValue p.data_type
       (pySlice dataBytes startIdx (startIdx + structSize p.data_type)),
     ts⟩ :: contiguousValues ptd ln ts dataBytes rest (startIdx + structSize p.data_type)

/-- A registry fragment for concrete checks.  Modelled from the spec
(§8, E4/E7): point type 103 "Analog Inputs" carries parameter 21
`EU_VALUE` of type FL and parameter 62 `POINT_TAG_ID` of type AC10. -/
def specReg : Registry :=
  [⟨103, "Analog Inputs", [⟨21, "EU_VALUE", .FL⟩, ⟨62, "POINT_TAG_ID", .AC10⟩]⟩]

/-- The TLP (103, 1, 21) resolved against `specReg`. -/
def tlp103_21 : TLPInstanceR := ⟨103, "Analog Inputs", 1, ⟨21, "EU_VALUE", .FL⟩⟩

end RocPy

/-- C1: the two bytes appended to every encoded request are exactly the
CRC-16/ARC of the header-plus-body bytes, low byte first; and the CRC of
the nine ASCII bytes "123456789" is 0x4B37, emitted as 37 4B. -/
theorem crc_appended_and_check_value :
    (∀ (d : RocPy.DeviceData) (r : RocPy.RequestData),
      RocPy.requestToBinary d r =
        RocPy.packetWithoutCrc d r ++
          [RocPy.crcValue (RocPy.packetWithoutCrc d r) % 256,
           RocPy.crcValue (RocPy.packetWithoutCrc d r) / 256 % 256]) ∧
    RocPy.crcValue [0x31, 0x32, 0x33, 0x34, 0x35, 0x36, 0x37, 0x38, 0x39] = 0x4B37 ∧
    RocPy.crcLsb [0x31, 0x32, 0x33, 0x34, 0x35, 0x36, 0x37, 0x38, 0x39] = 0x37 ∧
    RocPy.crcMsb [0x31, 0x32, 0x33, 0x34, 0x35, 0x36, 0x37, 0x38, 0x39] = 0x4B :=
  ⟨fun _ _ => rfl, by decide, by decide, by decide⟩

/-- C2, counterexample: the envelope decoder does not fail with
`FrameTooShort` on a buffer shorter than `6 + length + 2`: the six-byte
frame `01 00 02 03 07 00` (registered opcode 7, length 0, no CRC bytes
at all) decodes successfully. -/
theorem envelope_short_frame_accepted :
    RocPy.responseFromBinary [] 0 [1, 0, 2, 3, 7, 0] =
      .ok ⟨⟨2, 3, 1, 0⟩, 7, 0, Option.none⟩ ∧
    ([1, 0, 2, 3, 7, 0] : List Nat).length < 6 + 0 + 2 :=
  ⟨rfl, by decide⟩

/-- C2, amended: the response path performs no frame-length and no CRC
validation.  A well-formed opcode 7 frame decodes to the same value for
every choice of the two trailing CRC bytes (so a CRC mismatch is never
detected); a frame with a registered opcode and length byte 0 decodes
successfully even though it is shorter than `6 + length + 2`; and an
opcode with no registered model fails with a lookup error (`KeyError`
from `MessageModels.get_model_by_opcode`). -/
theorem envelope_decode_amended :
    (∀ c1 c2 : Nat,
      RocPy.responseFromBinary [] 0
        ([1, 0, 2, 3, 7, 8, 0x05, 0x1E, 0x0C, 0x17, 0x04, 0xE8, 0x07, 0x03] ++ [c1, c2]) =
        .ok ⟨⟨2, 3, 1, 0⟩, 7, 8, some (.readClock ⟨5, 30, 12, 23, 4, 2024, 3⟩)⟩) ∧
    RocPy.responseFromBinary [] 0 [1, 0, 2, 3, 42, 0] = .error .keyError ∧
    RocPy.responseFromBinary [] 0 [1, 0, 2, 3, 7, 0] =
      .ok ⟨⟨2, 3, 1, 0⟩, 7, 0, Option.none⟩ :=
  ⟨fun _ _ => rfl, rfl, rfl⟩

/-- C5, counterexample: a response that references a point-type number
absent from the registry makes the opcode 167 and opcode 180 response
decoders fail with the propagated `PointTypeNotFoundError` — the slot is
not materialized as a synthetic unknown point type.  The opcode 167
frame carries body `63 01 01 15 00` (point type 99, unknown in the
registry) and the opcode 180 frame carries body `01 63 01 15` (one TLP
with point type 99). -/
theorem registry_miss_fails_167_180 :
    RocPy.singlePointParameterDataFromBinary RocPy.specReg 0
      [1, 0, 2, 3, 167, 5, 99, 1, 1, 21, 0] = .error .pointTypeNotFound ∧
    RocPy.parameterDataFromBinary RocPy.specReg 0
      [1, 0, 2, 3, 180, 4, 1, 99, 1, 21] = .error .pointTypeNotFound :=
  ⟨rfl, rfl⟩

/-- C7, counterexample: for a width-1 data type the old value is not
decoded from the bytes following the new value.  In the record below the
data-type code is 4 (UINT8, width 1), the new value byte at offset 12 is
7, the byte following it (offset 13) is 42, and the byte at fixed offset
16 is 9: the decoder reports old value 9 (from offset 16), not 42. -/
theorem old_value_fixed_offset_counterexample :
    RocPy.parameterChangeEventFromBinary RocPy.specReg 1000
      [1, 0, 0, 0, 0, 65, 66, 67, 103, 1, 21, 4, 7, 42, 0, 0, 9, 0, 0, 0, 0, 0] =
      .ok ⟨1000, "ABC", RocPy.tlp103_21, .UINT8,
           ⟨RocPy.tlp103_21, .int 7, 1000⟩, ⟨RocPy.tlp103_21, .int 9, 999⟩⟩ ∧
    RocPy.pySlice
      [1, 0, 0, 0, 0, 65, 66, 67, 103, 1, 21, 4, 7, 42, 0, 0, 9, 0, 0, 0, 0, 0] 13 14 = [42] ∧
    RocPy.PyValue.int 9 ≠ RocPy.PyValue.int 42 :=
  ⟨rfl, rfl, by decide⟩

/-- C8: the calibrate-verify decoder builds `cal_value_obj` from
`raw_value`, not from the `cal_value` it just unpacked from payload
bytes 15..19.  At the record below, the raw f32 field is 0x3F800000
(1.0) and the calibrated f32 field is 0x40000000 (2.0); both decoded
values come out as the raw bit pattern, although the wire fields
differ. -/
theorem calibrated_value_is_raw_value :
    RocPy.calibrateVerifyEventFromBinary RocPy.specReg 1000
      [7, 0, 0, 0, 0, 65, 66, 67, 103, 1, 21,
       0x00, 0x00, 0x80, 0x3F, 0x00, 0x00, 0x00, 0x40, 0, 0, 0] =
      .ok ⟨1000, "ABC", RocPy.tlp103_21,
           ⟨RocPy.tlp103_21, .f32bits 0x3F800000, 1000⟩,
           ⟨RocPy.tlp103_21, .f32bits 0x3F800000, 1000⟩⟩ ∧
    RocPy.leNat (RocPy.pySlice
      [7, 0, 0, 0, 0, 65, 66, 67, 103, 1, 21,
       0x00, 0x00, 0x80, 0x3F, 0x00, 0x00, 0x00, 0x40, 0, 0, 0] 15 19) = 0x40000000 ∧
    (0x3F800000 : Nat) ≠ 0x40000000 :=
  ⟨rfl, by decide, by decide⟩

/-- C9: the single-flight guard is broken by its own `finally` clause.
Trace, with no completion of the first call in between: call A enters on
an idle client and proceeds (flag set); call B enters while A is in
flight and is rejected busy without writing bytes — but B's `finally`
clears `_active_request`; call C then enters while A is still in flight
and proceeds, writing its bytes.  The claim's guarantee (every
invocation made while another is active fails busy) fails at C.  The
`finally` does clear the flag on every exit of a completed call. -/
theorem single_flight_violated :
    (RocPy.enterRequest false).2 = .proceeded ∧
    (RocPy.enterRequest (RocPy.enterRequest false).1).2 = .busy ∧
    RocPy.writesBytes (RocPy.enterRequest (RocPy.enterRequest false).1).2 = false ∧
    (RocPy.enterRequest (RocPy.enterRequest (RocPy.enterRequest false).1).1).2 = .proceeded ∧
    RocPy.writesBytes
      (RocPy.enterRequest (RocPy.enterRequest (RocPy.enterRequest false).1).1).2 = true ∧
    (∀ b, RocPy.exitRequest b = false) :=
  ⟨rfl, rfl, rfl, rfl, rfl, fun _ => rfl⟩

/-- C10: the alarm-log and event-log convenience readers raise
`ValueError` before constructing any request when more than 10 records
are asked for, so nothing is written; for at most 10 records the opcode
118 / 119 request is built and the exchange proceeds. -/
theorem record_count_guard (startA startE : Int) (n : Nat) :
    (10 < n →
      RocPy.getAlarmDataRequest startA n = .error .valueError ∧
      RocPy.getEventDataRequest startE n = .error .valueError) ∧
    (n ≤ 10 →
      RocPy.getAlarmDataRequest startA n =
        .ok ⟨118, RocPy.alarmDataRequestBinary n startA⟩ ∧
      RocPy.getEventDataRequest startE n =
        .ok ⟨119, RocPy.eventDataRequestBinary n startE⟩) := by
  constructor
  · intro h
    constructor
    · simp [RocPy.getAlarmDataRequest, h]
    · simp [RocPy.getEventDataRequest, h]
  · intro h
    constructor
    · simp [RocPy.getAlarmDataRequest, Nat.not_lt.mpr h]
    · simp [RocPy.getEventDataRequest, Nat.not_lt.mpr h]

/-- Witness for C10 at 11 and 10 requested records. -/
theorem record_count_guard_witness :
    RocPy.getAlarmDataRequest 0 11 = .error .valueError ∧
    RocPy.getEventDataRequest 0 11 = .error .valueError ∧
    RocPy.getAlarmDataRequest 5 10 =
      .ok ⟨118, RocPy.alarmDataRequestBinary 10 5⟩ ∧
    RocPy.getEventDataRequest 5 10 =
      .ok ⟨119, RocPy.eventDataRequestBinary 10 5⟩ :=
  ⟨((record_count_guard 0 0 11).1 (by decide)).1,
   ((record_count_guard 0 0 11).1 (by decide)).2,
   ((record_count_guard 5 5 10).2 (by decide)).1,
   ((record_count_guard 5 5 10).2 (by decide)).2⟩

namespace RocPy

/-- Reduction of an `Except` bind on a success value. -/
@[simp] theorem ok_bind {ε α β : Type} (a : α) (f : α → Except ε β) :
    (Except.ok a : Except ε α) >>= f = f a := rfl

/-- Length of a Python slice. -/
theorem pySlice_length (xs : Bytes) (a b : Nat) :
    (pySlice xs a b).length = min (b - a) (xs.length - a) := by
  simp [pySlice]

/-- A present index succeeds with the byte at that position. -/
theorem idx_ok (raw : Bytes) (k : Nat) (h : k < raw.length) :
    idx raw k = .ok (raw.getD k 0) := by
  unfold idx pyIndex
  cases hg : raw.get? k with
  | none => exact absurd (List.get?_eq_none.mp hg) (Nat.not_le.mpr h)
  | some b =>
    have hb : raw[k]? = some b := by rw [← List.get?_eq_getElem?]; exact hg
    simp [List.getD_eq_getElem?_getD, hb]

/-- The count-collection loop of the opcode 6 decoder succeeds when all
196 indices are present, producing the keyed byte list. -/
theorem countsMapM (raw : Bytes) (l : List Nat)
    (h : ∀ i ∈ l, 25 + i < raw.length) :
    (l.mapM (fun i => do
        let b ← idx raw (25 + i)
        pure ((25 + i) + 35, b)) : Except DecodeErr _) =
      Except.ok (l.map (fun i => (60 + i, raw.getD (25 + i) 0))) := by
  induction l with
  | nil => rfl
  | cons i rest ih =>
    have h1 : 25 + i < raw.length := h i (by simp)
    have h2 : ∀ j ∈ rest, 25 + j < raw.length := fun j hj => h j (by simp [hj])
    have e : (25 + i) + 35 = 60 + i := by omega
    rw [List.mapM_cons, idx_ok raw (25 + i) h1, ih h2]
    simp [e]

end RocPy

/-- C3: the opcode 6 decoder reads `operating_mode` at body offset 0
(frame offset 6), `comm_port` as a little-endian signed 16-bit integer
at body offsets 1..3, `security_access_mode` at 3, the compatibility
status at 4, `opcode_revision` at 5, `roc_subtype` at 6, `roc_type` at
body offset 18, and for every `i < 196` records the byte at body offset
`19 + i` (frame offset `25 + i`) as the logical-point count for point
type `i + 60`. -/
theorem system_config_offsets (raw : RocPy.Bytes)
    (hlen : 221 ≤ raw.length)
    (hom : RocPy.validOperatingMode (raw.getD 6 0) = true)
    (hcs : RocPy.validCompatStatus (raw.getD 10 0) = true)
    (hor : RocPy.validOpcodeRevision (raw.getD 11 0) = true)
    (hst : RocPy.validROCSubType (raw.getD 12 0) = true)
    (hrt : RocPy.validROCType (raw.getD 24 0) = true) :
    RocPy.systemConfigDataFromBinary raw =
      .ok ⟨raw.getD 6 0, RocPy.toSigned 2 (RocPy.leNat (RocPy.pySlice raw 7 9)),
           raw.getD 9 0, raw.getD 10 0, raw.getD 11 0, raw.getD 12 0, raw.getD 24 0,
           (List.range 196).map (fun i => (60 + i, raw.getD (25 + i) 0))⟩ := by
  have hcomm : (RocPy.pySlice raw 7 9).length = 2 := by
    rw [RocPy.pySlice_length]; omega
  unfold RocPy.systemConfigDataFromBinary
  rw [RocPy.idx_ok raw 6 (by omega)]
  simp only [RocPy.ok_bind, hcomm]
  rw [if_neg (by omega)]
  rw [RocPy.idx_ok raw 9 (by omega), RocPy.idx_ok raw 10 (by omega),
      RocPy.idx_ok raw 11 (by omega), RocPy.idx_ok raw 12 (by omega),
      RocPy.idx_ok raw 24 (by omega),
      RocPy.countsMapM raw (List.range 196)
        (by intro i hi; rw [List.mem_range] at hi; omega)]
  simp only [RocPy.ok_bind]
  rw [if_pos ⟨by simpa using hom, by simpa using hcs, by simpa using hor,
    by simpa using hst, by simpa using hrt⟩]

/-- Witness for C3: a concrete 221-byte opcode 6 frame (run mode, comm
port 1, ROC_800 type at body offset 18, all counts zero). -/
theorem system_config_offsets_witness :
    RocPy.systemConfigDataFromBinary
      ([1, 0, 2, 3, 6, 215, 1, 1, 0, 0, 0, 0, 0] ++ List.replicate 11 0 ++
        [6] ++ List.replicate 196 0) =
      .ok ⟨1, 1, 0, 0, 0, 0, 6, (List.range 196).map (fun i => (60 + i, 0))⟩ := by
  have h := system_config_offsets
    ([1, 0, 2, 3, 6, 215, 1, 1, 0, 0, 0, 0, 0] ++ List.replicate 11 0 ++
      [6] ++ List.replicate 196 0)
    (by decide) (by decide) (by decide) (by decide) (by decide) (by decide)
  rw [h]
  rfl

namespace RocPy

/-- `validate_value` succeeds on the unpack result of any data type
other than `UNKNOWN`, yielding the (possibly string-coerced) value. -/
theorem coerce_unpack (dt : ROCDataType) (bs : Bytes) (h : dt ≠ .UNKNOWN) :
    coerceValue dt (structUnpackValue dt bs) = .ok (decodedValue dt bs) := by
  cases dt <;> first | rfl | exact absurd rfl h

/-- Slicing the body out of a six-byte-prefixed frame. -/
theorem pySlice_prefix6 (x0 x1 x2 x3 x4 x5 : Nat) (body : Bytes) (n : Nat) :
    pySlice ([x0, x1, x2, x3, x4, x5] ++ body) 6 (6 + n) = body.take n := by
  unfold pySlice
  rw [show 6 + n - 6 = n from by omega]
  rfl

/-- Taking a four-byte echo plus all value bytes returns the whole body. -/
theorem take_body_all (b0 b1 b2 b3 : Nat) (vs : Bytes) :
    (b0 :: b1 :: b2 :: b3 :: vs).take (vs.length + 4) = b0 :: b1 :: b2 :: b3 :: vs := by
  show b0 :: b1 :: b2 :: b3 :: vs.take vs.length = _
  rw [List.take_length]

/-- The positional reading has one entry per parameter. -/
theorem contiguousValues_length (ptd : PointTypeDef) (ln : Nat) (ts : Int)
    (dataBytes : Bytes) (params : List Parameter) :
    ∀ startIdx, (contiguousValues ptd ln ts dataBytes params startIdx).length
      = params.length := by
  induction params with
  | nil => intro _; rfl
  | cons p rest ih =>
    intro startIdx
    simp only [contiguousValues, List.length_cons, ih]

/-- The opcode 167 loop, run over contiguously resolvable parameters
with enough value bytes, equals the positional reading. -/
theorem decode167Loop_walk (ptd : PointTypeDef) (ln : Nat) (dataBytes : Bytes)
    (startParam : Nat) (ts : Int) (params : List Parameter) :
    ∀ (i startIdx : Nat),
      paramsFrom ptd (startParam + i) params →
      (∀ p ∈ params, p.data_type ≠ .UNKNOWN) →
      startIdx + widthSum params ≤ dataBytes.length →
      decode167Loop ptd ln dataBytes startParam ts params.length i startIdx =
        .ok (contiguousValues ptd ln ts dataBytes params startIdx) := by
  induction params with
  | nil => intro i startIdx _ _ _; rfl
  | cons p rest ih =>
    intro i startIdx hps hu hlen
    have hlen' : startIdx + (structSize p.data_type + widthSum rest)
        ≤ dataBytes.length := hlen
    have hw : (pySlice dataBytes startIdx (startIdx + structSize p.data_type)).length
        = structSize p.data_type := by
      rw [pySlice_length]; omega
    have hp1 : getParameterE ptd (startParam + i) = .ok p := by
      unfold getParameterE; rw [hps.1]
    have hrec := ih (i + 1) (startIdx + structSize p.data_type) hps.2
      (fun q hq => hu q (List.mem_cons_of_mem _ hq)) (by omega)
    show decode167Loop ptd ln dataBytes startParam ts (rest.length + 1) i startIdx = _
    simp only [decode167Loop]
    rw [hp1]
    simp only [ok_bind]
    rw [if_pos hw]
    unfold mkTLPValue
    rw [coerce_unpack p.data_type _ (hu p (List.mem_cons_self p rest))]
    simp only [ok_bind]
    rw [hrec]
    rfl

end RocPy

/-- C4: for an opcode-167 response whose body echoes the point type,
logical number, count and starting parameter, with every parameter
number `starting_parameter + i` (`i < count`) resolvable in the registry
for that point type and enough value bytes, the decoder produces exactly
`count` `TLPValue` results, each consuming exactly its parameter's
declared data-type width from the concatenated value bytes (consecutive
values adjacent, in parameter order) and decoded per the parameter's
data type.  `params` lists those resolved parameters in order
(`RocPy.paramsFrom`), and `RocPy.contiguousValues` is the positional
reading. -/
theorem single_point_parameter_walk
    (reg : RocPy.Registry) (ts : Int) (a0 a1 a2 a3 a4 pt ln startp : Nat)
    (ptd : RocPy.PointTypeDef) (params : List RocPy.Parameter)
    (valueBytes : RocPy.Bytes)
    (hpt : RocPy.getPointTypeByNumber reg pt = some ptd)
    (hps : RocPy.paramsFrom ptd startp params)
    (hu : ∀ p ∈ params, p.data_type ≠ .UNKNOWN)
    (hlen : RocPy.widthSum params ≤ valueBytes.length) :
    RocPy.singlePointParameterDataFromBinary reg ts
      ([a0, a1, a2, a3, a4, valueBytes.length + 4] ++
        pt :: ln :: params.length :: startp :: valueBytes) =
      .ok ⟨pt, ln, params.length, startp,
           RocPy.contiguousValues ptd ln ts valueBytes params 0⟩ ∧
    (RocPy.contiguousValues ptd ln ts valueBytes params 0).length = params.length := by
  refine ⟨?_, RocPy.contiguousValues_length ptd ln ts valueBytes params 0⟩
  unfold RocPy.singlePointParameterDataFromBinary
  rw [show RocPy.idx ([a0, a1, a2, a3, a4, valueBytes.length + 4] ++
      pt :: ln :: params.length :: startp :: valueBytes) 5 =
      Except.ok (valueBytes.length + 4) from rfl]
  simp only [RocPy.ok_bind]
  rw [RocPy.pySlice_prefix6, RocPy.take_body_all]
  rw [show RocPy.idx (pt :: ln :: params.length :: startp :: valueBytes) 0 =
      Except.ok pt from rfl]
  simp only [RocPy.ok_bind]
  rw [show RocPy.idx (pt :: ln :: params.length :: startp :: valueBytes) 1 =
      Except.ok ln from rfl]
  simp only [RocPy.ok_bind]
  rw [show RocPy.idx (pt :: ln :: params.length :: startp :: valueBytes) 2 =
      Except.ok params.length from rfl]
  simp only [RocPy.ok_bind]
  rw [show RocPy.idx (pt :: ln :: params.length :: startp :: valueBytes) 3 =
      Except.ok startp from rfl]
  simp only [RocPy.ok_bind]
  rw [show (pt :: ln :: params.length :: startp :: valueBytes).drop 4 =
      valueBytes from rfl]
  rw [show RocPy.getPointTypeE reg pt = Except.ok ptd from by
    unfold RocPy.getPointTypeE; rw [hpt]]
  simp only [RocPy.ok_bind]
  rw [RocPy.decode167Loop_walk ptd ln valueBytes startp ts params 0 0 hps hu
    (by omega)]
  rfl

/-- Witness for C4: the spec's E7 scenario — one AC10 parameter
(`POINT_TAG_ID`, number 62) of point type 103 read contiguously; the
ten tag bytes decode to the stripped string "FT-101". -/
theorem single_point_parameter_walk_witness :
    RocPy.singlePointParameterDataFromBinary RocPy.specReg 0
      ([1, 0, 2, 3, 167, 14] ++
        103 :: 1 :: 1 :: 62 :: [70, 84, 45, 49, 48, 49, 32, 32, 32, 32]) =
      .ok ⟨103, 1, 1, 62,
        [⟨⟨103, "Analog Inputs", 1, ⟨62, "POINT_TAG_ID", .AC10⟩⟩,
          .str "FT-101", 0⟩]⟩ := by
  have h := (single_point_parameter_walk RocPy.specReg 0 1 0 2 3 167 103 1 62
    ⟨103, "Analog Inputs", [⟨21, "EU_VALUE", .FL⟩, ⟨62, "POINT_TAG_ID", .AC10⟩]⟩
    [⟨62, "POINT_TAG_ID", .AC10⟩] [70, 84, 45, 49, 48, 49, 32, 32, 32, 32]
    rfl ⟨rfl, trivial⟩ (by decide) (by decide)).1
  exact h

namespace RocPy

/-- Reduction of an `Except` bind on an error value. -/
@[simp] theorem error_bind {ε α β : Type} (e : ε) (f : α → Except ε β) :
    (Except.error e : Except ε α) >>= f = .error e := rfl

end RocPy

/-- C5, amended: a point-type number absent from the registry is
materialized as a synthetic unknown point type (carrying the number and
the UNKNOWN data type) only by decoders that resolve TLPs through
`TLPInstance.from_integers` (the alarm and event record decoders); the
opcode 167 and opcode 180 response decoders look the registry up
directly and fail on an unknown point type, exactly as every decoder
fails on a parameter number absent from a known point type. -/
theorem registry_miss_handling_amended :
    (∀ (reg : RocPy.Registry) (pt ln param : Nat),
      RocPy.getPointTypeByNumber reg pt = Option.none →
        RocPy.fromIntegers reg pt ln param = .ok (RocPy.unknownTLP pt ln param) ∧
        (RocPy.unknownTLP pt ln param).parameter.data_type = .UNKNOWN ∧
        (RocPy.unknownTLP pt ln param).point_type_number = pt) ∧
    (∀ (reg : RocPy.Registry) (pt ln param : Nat) (ptd : RocPy.PointTypeDef),
      RocPy.getPointTypeByNumber reg pt = some ptd →
      RocPy.getParameterByNumber ptd param = Option.none →
        RocPy.fromIntegers reg pt ln param = .error .parameterNotFound) ∧
    (∀ (reg : RocPy.Registry) (ts : Int) (a0 a1 a2 a3 a4 pt ln c startp : Nat)
        (vb : RocPy.Bytes),
      RocPy.getPointTypeByNumber reg pt = Option.none →
        RocPy.singlePointParameterDataFromBinary reg ts
          ([a0, a1, a2, a3, a4, vb.length + 4] ++ pt :: ln :: c :: startp :: vb)
          = .error .pointTypeNotFound) ∧
    (∀ (reg : RocPy.Registry) (ts : Int) (a0 a1 a2 a3 a4 cnt pt ln param : Nat)
        (rest : RocPy.Bytes),
      RocPy.getPointTypeByNumber reg pt = Option.none →
        RocPy.parameterDataFromBinary reg ts
          ([a0, a1, a2, a3, a4, rest.length + 4] ++ (cnt + 1) :: pt :: ln :: param :: rest)
          = .error .pointTypeNotFound) ∧
    (∀ (reg : RocPy.Registry) (ts : Int) (a0 a1 a2 a3 a4 pt ln startp : Nat)
        (vb : RocPy.Bytes) (ptd : RocPy.PointTypeDef),
      RocPy.getPointTypeByNumber reg pt = some ptd →
      RocPy.getParameterByNumber ptd startp = Option.none →
        RocPy.singlePointParameterDataFromBinary reg ts
          ([a0, a1, a2, a3, a4, vb.length + 4] ++ pt :: ln :: 1 :: startp :: vb)
          = .error .parameterNotFound) := by
  refine ⟨?_, ?_, ?_, ?_, ?_⟩
  · intro reg pt ln param h
    unfold RocPy.fromIntegers
    rw [h]
    exact ⟨rfl, rfl, rfl⟩
  · intro reg pt ln param ptd h1 h2
    unfold RocPy.fromIntegers
    rw [h1]
    dsimp only
    rw [h2]
  · intro reg ts a0 a1 a2 a3 a4 pt ln c startp vb h
    unfold RocPy.singlePointParameterDataFromBinary
    rw [show RocPy.idx ([a0, a1, a2, a3, a4, vb.length + 4] ++
        pt :: ln :: c :: startp :: vb) 5 = Except.ok (vb.length + 4) from rfl]
    simp only [RocPy.ok_bind]
    rw [RocPy.pySlice_prefix6, RocPy.take_body_all]
    rw [show RocPy.idx (pt :: ln :: c :: startp :: vb) 0 = Except.ok pt from rfl]
    simp only [RocPy.ok_bind]
    rw [show RocPy.idx (pt :: ln :: c :: startp :: vb) 1 = Except.ok ln from rfl]
    simp only [RocPy.ok_bind]
    rw [show RocPy.idx (pt :: ln :: c :: startp :: vb) 2 = Except.ok c from rfl]
    simp only [RocPy.ok_bind]
    rw [show RocPy.idx (pt :: ln :: c :: startp :: vb) 3 = Except.ok startp from rfl]
    simp only [RocPy.ok_bind]
    rw [show RocPy.getPointTypeE reg pt =
        Except.error RocPy.DecodeErr.pointTypeNotFound from by
      unfold RocPy.getPointTypeE; rw [h]]
    simp only [RocPy.error_bind]
  · intro reg ts a0 a1 a2 a3 a4 cnt pt ln param rest h
    unfold RocPy.parameterDataFromBinary
    rw [show RocPy.idx ([a0, a1, a2, a3, a4, rest.length + 4] ++
        (cnt + 1) :: pt :: ln :: param :: rest) 5 = Except.ok (rest.length + 4) from rfl]
    simp only [RocPy.ok_bind]
    rw [RocPy.pySlice_prefix6, RocPy.take_body_all]
    rw [show RocPy.idx ((cnt + 1) :: pt :: ln :: param :: rest) 0 =
        Except.ok (cnt + 1) from rfl]
    simp only [RocPy.ok_bind]
    rw [show ((cnt + 1) :: pt :: ln :: param :: rest).drop 1 =
        pt :: ln :: param :: rest from rfl]
    simp only [RocPy.decode180Loop]
    rw [show RocPy.pySlice (pt :: ln :: param :: rest) 0 (0 + 3) = [pt, ln, param] from rfl]
    dsimp only
    rw [show RocPy.getPointTypeE reg pt =
        Except.error RocPy.DecodeErr.pointTypeNotFound from by
      unfold RocPy.getPointTypeE; rw [h]]
    simp only [RocPy.error_bind]
  · intro reg ts a0 a1 a2 a3 a4 pt ln startp vb ptd h1 h2
    unfold RocPy.singlePointParameterDataFromBinary
    rw [show RocPy.idx ([a0, a1, a2, a3, a4, vb.length + 4] ++
        pt :: ln :: 1 :: startp :: vb) 5 = Except.ok (vb.length + 4) from rfl]
    simp only [RocPy.ok_bind]
    rw [RocPy.pySlice_prefix6, RocPy.take_body_all]
    rw [show RocPy.idx (pt :: ln :: 1 :: startp :: vb) 0 = Except.ok pt from rfl]
    simp only [RocPy.ok_bind]
    rw [show RocPy.idx (pt :: ln :: 1 :: startp :: vb) 1 = Except.ok ln from rfl]
    simp only [RocPy.ok_bind]
    rw [show RocPy.idx (pt :: ln :: 1 :: startp :: vb) 2 = Except.ok 1 from rfl]
    simp only [RocPy.ok_bind]
    rw [show RocPy.idx (pt :: ln :: 1 :: startp :: vb) 3 = Except.ok startp from rfl]
    simp only [RocPy.ok_bind]
    rw [show RocPy.getPointTypeE reg pt = Except.ok ptd from by
      unfold RocPy.getPointTypeE; rw [h1]]
    simp only [RocPy.ok_bind]
    simp only [RocPy.decode167Loop]
    rw [show RocPy.getParameterE ptd (startp + 0) =
        Except.error RocPy.DecodeErr.parameterNotFound from by
      unfold RocPy.getParameterE; rw [Nat.add_zero, h2]]
    simp only [RocPy.error_bind]

/-- Witness for C5: against the concrete registry, the unknown point
type 99 is materialized by `from_integers` but fails the opcode 167 and
180 decoders, and the unknown parameter 99 of known point type 103 fails
everywhere. -/
theorem registry_miss_handling_amended_witness :
    RocPy.fromIntegers RocPy.specReg 99 1 21 = .ok (RocPy.unknownTLP 99 1 21) ∧
    RocPy.fromIntegers RocPy.specReg 103 1 99 = .error .parameterNotFound ∧
    RocPy.singlePointParameterDataFromBinary RocPy.specReg 0
      ([1, 0, 2, 3, 167, 5] ++ 99 :: 1 :: 1 :: 21 :: [0]) = .error .pointTypeNotFound ∧
    RocPy.parameterDataFromBinary RocPy.specReg 0
      ([1, 0, 2, 3, 180, 4] ++ 1 :: 99 :: 1 :: 21 :: []) = .error .pointTypeNotFound ∧
    RocPy.singlePointParameterDataFromBinary RocPy.specReg 0
      ([1, 0, 2, 3, 167, 5] ++ 103 :: 1 :: 1 :: 99 :: [0]) = .error .parameterNotFound :=
  ⟨(registry_miss_handling_amended.1 RocPy.specReg 99 1 21 rfl).1,
   registry_miss_handling_amended.2.1 RocPy.specReg 103 1 99
     ⟨103, "Analog Inputs", [⟨21, "EU_VALUE", .FL⟩, ⟨62, "POINT_TAG_ID", .AC10⟩]⟩ rfl rfl,
   registry_miss_handling_amended.2.2.1 RocPy.specReg 0 1 0 2 3 167 99 1 1 21 [0] rfl,
   registry_miss_handling_amended.2.2.2.1 RocPy.specReg 0 1 0 2 3 180 0 99 1 21 [] rfl,
   registry_miss_handling_amended.2.2.2.2 RocPy.specReg 0 1 0 2 3 167 103 1 99 [0]
     ⟨103, "Analog Inputs", [⟨21, "EU_VALUE", .FL⟩, ⟨62, "POINT_TAG_ID", .AC10⟩]⟩ rfl rfl⟩

/-- C6, counterexample: the E5 alarm record decodes with description
"HI_ALRM   " — the ten wire bytes with their trailing spaces preserved —
not the trimmed "HI_ALRM": the alarm decoder assigns the raw bytes to a
string field (pydantic decodes without stripping). -/
theorem alarm_description_untrimmed :
    RocPy.getAlarmFromBinary RocPy.specReg
      [0x41, 0, 0, 0, 0, 2, 103, 1, 21,
       72, 73, 95, 65, 76, 82, 77, 32, 32, 32, 0, 0, 0x20, 0x41] =
      .ok (.parameterAlarm false true 0 2 RocPy.tlp103_21 "HI_ALRM   " 0x41200000) ∧
    ("HI_ALRM   " : String) ≠ "HI_ALRM" :=
  ⟨rfl, by decide⟩

/-- C6, amended: byte 0 of an alarm record is unpacked as bit 7 =
`is_srbx`, bit 6 = `condition` (0 cleared, 1 set) and bits 5..0 = the
alarm type code (for byte values < 256 the reassembled code is the byte
mod 64), bytes 1..5 as a little-endian u32 epoch timestamp, and those
fields are handed to the kind's decoder; the E5 record (byte 0 = 0x41, a
zero TIME, code byte 02, TLP bytes 67 01 15, ten ASCII bytes
"HI_ALRM   ", f32 0x41200000) decodes to a ParameterAlarm with is_srbx
false, condition set, alarm code HIGH_ALARM (2), TLP (103, 1, 21),
description "HI_ALRM   " (trailing whitespace preserved) and value
10.0 (f32 bit pattern 0x41200000). -/
theorem alarm_record_decoding_amended :
    (∀ b0 : Nat, b0 < 256 → RocPy.alarmTypeCodeOf b0 = b0 % 64) ∧
    (∀ (reg : RocPy.Registry) (data : RocPy.Bytes) (b0 : Nat),
      RocPy.pyIndex data 0 = some b0 →
      (RocPy.pySlice data 1 5).length = 4 →
      ((RocPy.alarmTypeCodeOf b0 = 0 →
        RocPy.getAlarmFromBinary reg data =
          .ok (.noAlarm (RocPy.pyBit b0 7) (RocPy.pyBit b0 6)
            (RocPy.leNat (RocPy.pySlice data 1 5) : Int))) ∧
       (RocPy.alarmTypeCodeOf b0 = 1 →
        RocPy.getAlarmFromBinary reg data =
          RocPy.parameterAlarmFromBinary reg (RocPy.pyBit b0 7) (RocPy.pyBit b0 6)
            (RocPy.leNat (RocPy.pySlice data 1 5) : Int) data) ∧
       (RocPy.alarmTypeCodeOf b0 = 2 →
        RocPy.getAlarmFromBinary reg data =
          RocPy.fstAlarmFromBinary (RocPy.pyBit b0 7) (RocPy.pyBit b0 6)
            (RocPy.leNat (RocPy.pySlice data 1 5) : Int) data) ∧
       (RocPy.alarmTypeCodeOf b0 = 3 →
        RocPy.getAlarmFromBinary reg data =
          RocPy.userTextAlarmFromBinary (RocPy.pyBit b0 7) (RocPy.pyBit b0 6)
            (RocPy.leNat (RocPy.pySlice data 1 5) : Int) data) ∧
       (RocPy.alarmTypeCodeOf b0 = 4 →
        RocPy.getAlarmFromBinary reg data =
          RocPy.userValueAlarmFromBinary (RocPy.pyBit b0 7) (RocPy.pyBit b0 6)
            (RocPy.leNat (RocPy.pySlice data 1 5) : Int) data))) ∧
    RocPy.getAlarmFromBinary RocPy.specReg
      [0x41, 0, 0, 0, 0, 2, 103, 1, 21,
       72, 73, 95, 65, 76, 82, 77, 32, 32, 32, 0, 0, 0x20, 0x41] =
      .ok (.parameterAlarm false true 0 2 RocPy.tlp103_21 "HI_ALRM   " 0x41200000) := by
  refine ⟨by decide, ?_, rfl⟩
  intro reg data b0 h0 hts
  have hidx : RocPy.idx data 0 = Except.ok b0 := by unfold RocPy.idx; rw [h0]
  refine ⟨?_, ?_, ?_, ?_, ?_⟩ <;> intro hc <;>
    unfold RocPy.getAlarmFromBinary <;>
    rw [hidx] <;> simp only [RocPy.ok_bind] <;>
    rw [hc] <;> rw [if_pos (by norm_num)] <;> rw [if_pos hts]

/-- Witness for C6 at the E5 record: byte 0 = 0x41 yields is_srbx false
(bit 7), condition set (bit 6), code 1 = 0x41 % 64, and the record is
dispatched to the ParameterAlarm decoder with the zero timestamp. -/
theorem alarm_record_decoding_amended_witness :
    RocPy.getAlarmFromBinary RocPy.specReg
      [0x41, 0, 0, 0, 0, 2, 103, 1, 21,
       72, 73, 95, 65, 76, 82, 77, 32, 32, 32, 0, 0, 0x20, 0x41] =
      RocPy.parameterAlarmFromBinary RocPy.specReg false true 0
        [0x41, 0, 0, 0, 0, 2, 103, 1, 21,
         72, 73, 95, 65, 76, 82, 77, 32, 32, 32, 0, 0, 0x20, 0x41] ∧
    RocPy.alarmTypeCodeOf 0x41 = 0x41 % 64 := by
  refine ⟨?_, alarm_record_decoding_amended.1 0x41 (by decide)⟩
  exact (alarm_record_decoding_amended.2.1 RocPy.specReg
    [0x41, 0, 0, 0, 0, 2, 103, 1, 21,
     72, 73, 95, 65, 76, 82, 77, 32, 32, 32, 0, 0, 0x20, 0x41] 0x41 rfl
    (by decide)).2.1 (by decide)

/-- C7, amended: in a kind-1 parameter-change event record whose
components resolve (operator bytes present, TLP resolved, data-type code
in the event table, enough bytes for the new-value slot), the new value
is decoded from bytes `12 .. 12+W`; the old value is `None` when the
data width `W` exceeds 4 and is otherwise decoded from the fixed bytes
`16 .. 16+W` — four bytes after the new-value slot start, not the bytes
immediately following a narrower new value — and the old value's
reported timestamp is exactly one second before the event timestamp. -/
theorem parameter_change_event_amended
    (reg : RocPy.Registry) (ts : Int) (data : RocPy.Bytes)
    (pt' ln' param' dtc : Nat) (tlp : RocPy.TLPInstanceR) (dt : RocPy.ROCDataType)
    (hop : (RocPy.pySlice data 5 8).length = 3)
    (h8 : RocPy.pyIndex data 8 = some pt')
    (h9 : RocPy.pyIndex data 9 = some ln')
    (h10 : RocPy.pyIndex data 10 = some param')
    (htlp : RocPy.fromIntegers reg pt' ln' param' = .ok tlp)
    (h11 : RocPy.pyIndex data 11 = some dtc)
    (hdt : RocPy.eventDataTypeDict dtc = some dt)
    (hnew : (RocPy.pySlice data 12 (12 + RocPy.structSize dt)).length
      = RocPy.structSize dt)
    (hold : RocPy.structSize dt ≤ 4 →
      (RocPy.pySlice data 16 (16 + RocPy.structSize dt)).length
        = RocPy.structSize dt) :
    RocPy.parameterChangeEventFromBinary reg ts data =
      .ok ⟨ts, RocPy.asciiString (RocPy.pySlice data 5 8), tlp, dt,
        RocPy.fromTlpInstance tlp
          (RocPy.structUnpackValue dt (RocPy.pySlice data 12 (12 + RocPy.structSize dt))) ts,
        RocPy.fromTlpInstance tlp
          (if 4 < RocPy.structSize dt then RocPy.PyValue.none
           else RocPy.structUnpackValue dt (RocPy.pySlice data 16 (16 + RocPy.structSize dt)))
          (ts - 1)⟩ := by
  unfold RocPy.parameterChangeEventFromBinary
  rw [if_neg (show ¬((RocPy.pySlice data 5 8).length ≠ 3) from fun hne => hne hop)]
  rw [show RocPy.idx data 8 = Except.ok pt' from by unfold RocPy.idx; rw [h8]]
  simp only [RocPy.ok_bind]
  rw [show RocPy.idx data 9 = Except.ok ln' from by unfold RocPy.idx; rw [h9]]
  simp only [RocPy.ok_bind]
  rw [show RocPy.idx data 10 = Except.ok param' from by unfold RocPy.idx; rw [h10]]
  simp only [RocPy.ok_bind]
  rw [htlp]
  simp only [RocPy.ok_bind]
  rw [show RocPy.idx data 11 = Except.ok dtc from by unfold RocPy.idx; rw [h11]]
  simp only [RocPy.ok_bind]
  rw [hdt]
  simp only [RocPy.ok_bind]
  rw [if_neg (show ¬((RocPy.pySlice data 12 (12 + RocPy.structSize dt)).length
    ≠ RocPy.structSize dt) from fun hne => hne hnew)]
  by_cases h4 : 4 < RocPy.structSize dt
  · simp only [if_pos h4]
  · simp only [if_neg h4, if_pos (hold (Nat.le_of_not_lt h4))]

/-- Witness for C7 at two concrete records: a UINT8 change (width 1, old
value read from byte 16 with timestamp 999 = 1000 - 1) and a DOUBLE
change (width 8 > 4, old value None). -/
theorem parameter_change_event_amended_witness :
    RocPy.parameterChangeEventFromBinary RocPy.specReg 1000
      [1, 0, 0, 0, 0, 65, 66, 67, 103, 1, 21, 4, 7, 42, 0, 0, 9, 0, 0, 0, 0, 0] =
      .ok ⟨1000, "ABC", RocPy.tlp103_21, .UINT8,
           ⟨RocPy.tlp103_21, .int 7, 1000⟩, ⟨RocPy.tlp103_21, .int 9, 999⟩⟩ ∧
    RocPy.parameterChangeEventFromBinary RocPy.specReg 1000
      [1, 0, 0, 0, 0, 65, 66, 67, 103, 1, 21, 16, 1, 2, 3, 4, 5, 6, 7, 8, 0, 0] =
      .ok ⟨1000, "ABC", RocPy.tlp103_21, .DBL,
           ⟨RocPy.tlp103_21, .f64bits 0x0807060504030201, 1000⟩,
           ⟨RocPy.tlp103_21, .none, 999⟩⟩ := by
  constructor
  · exact parameter_change_event_amended RocPy.specReg 1000
      [1, 0, 0, 0, 0, 65, 66, 67, 103, 1, 21, 4, 7, 42, 0, 0, 9, 0, 0, 0, 0, 0]
      103 1 21 4 RocPy.tlp103_21 .UINT8 rfl rfl rfl rfl rfl rfl rfl rfl
      (fun _ => rfl)
  · exact parameter_change_event_amended RocPy.specReg 1000
      [1, 0, 0, 0, 0, 65, 66, 67, 103, 1, 21, 16, 1, 2, 3, 4, 5, 6, 7, 8, 0, 0]
      103 1 21 16 RocPy.tlp103_21 .DBL rfl rfl rfl rfl rfl rfl rfl rfl
      (fun h => absurd h (by decide))
